import Mathlib

/-!
Verification of the GoatMorpho morphometric feature-extraction engine.

This file embeds, in Lean 4, the parts of the repository that the
specification's testable properties are about:

* `measurements/cv_processor.py` — class `GoatMorphometryProcessor`:
  keypoint extraction, scale calibration (`_calculate_scale_factor`),
  the fixed measurement catalog (`_calculate_measurements`), the
  fallback face-detection chain (`process_uploaded_image`,
  `_fallback_face_detection`, `_estimate_goat_keypoints`) and the
  confidence score (`_calculate_confidence`).
* `measurements/cv_processor_advanced.py` — class
  `AdvancedGoatMorphometryProcessor`: the outcome-deciding control flow of
  `process_goat_image_advanced`, the bootstrap uncertainty loop of
  `_extract_measurements_with_uncertainty` together with
  `_add_landmark_noise`, the anatomical validator `_validate_measurements`,
  the confidence scorer `_calculate_confidence_score`, and the fixed
  catalog of measurement functions (`_get_measurement_functions`).

Modelling conventions:
* Python floats are modelled as exact real numbers (`ℝ`) on the geometric
  side (the simple processor) and as exact rationals (`ℚ`) on the advanced
  side, whose arithmetic never leaves `ℚ`.  IEEE-754 rounding error is not
  modelled; the specification's numeric identities are about the ideal
  arithmetic the code writes down.
* Calls into external libraries (OpenCV decoding, MediaPipe detectors,
  NumPy random draws, the IsolationForest) are modelled as explicit inputs
  of an environment record: each field holds exactly the value the
  corresponding library call returns to the surrounding Python code.
* Python dictionaries with string keys are modelled as association lists;
  a lookup that finds no entry models both a missing key and a `None`
  value (`dict.get` returns `None` in both cases).  Dictionary insertion
  overwrites, so dictionary lookup is modelled by searching the list from
  its end (`kpDict`), while `next(... )`-style searches read from the
  front (`List.find?`).
* Exception paths that only a failing external library call can trigger
  are not modelled; the embedded functions are total by construction.
-/

namespace GoatMorpho

/-- Truncation toward zero, the semantics of Python's `int(...)` applied to
a float. -/
noncomputable def truncI (x : ℝ) : ℤ :=
  if 0 ≤ x then ⌊x⌋ else -⌊-x⌋

/-- Round to the nearest integer, ties to the nearest even integer: the
semantics of Python's builtin `round` on an exact value. -/
noncomputable def rndHalfEven (x : ℝ) : ℤ :=
  if x - ⌊x⌋ < 1 / 2 then ⌊x⌋
  else if 1 / 2 < x - ⌊x⌋ then ⌊x⌋ + 1
  else if Even ⌊x⌋ then ⌊x⌋ else ⌊x⌋ + 1

/-- Python's `round(x, 2)`. -/
noncomputable def round2 (x : ℝ) : ℝ :=
  (rndHalfEven (x * 100) : ℝ) / 100

/-- Python's `round(x, 3)`. -/
noncomputable def round3 (x : ℝ) : ℝ :=
  (rndHalfEven (x * 1000) : ℝ) / 1000

/-! ## Data model of the simple processor (`cv_processor.py`) -/

/-- One keypoint dictionary as built by `_extract_keypoints` (fields
`name`, `x`, `y`, `z`, `visibility`) or `_estimate_goat_keypoints` (which
additionally sets a `confidence` key; `confidence := none` models a
keypoint dictionary without that key, i.e. a detected landmark, while
`confidence := some c` models an estimated landmark). -/
structure Keypoint where
  name : String
  x : ℝ
  y : ℝ
  z : ℝ
  visibility : ℝ
  confidence : Option ℝ := none

/-- `{kp['name']: kp for kp in keypoints}` followed by a key lookup: the
last keypoint carrying the name wins, as for Python dict construction. -/
def kpDict (kps : List Keypoint) (n : String) : Option Keypoint :=
  kps.reverse.find? (fun kp => kp.name == n)

/-- `next((kp for kp in keypoints if kp['name'] == n), None)`: the first
keypoint carrying the name, as used by `_calculate_scale_factor`. -/
def kpFirst (kps : List Keypoint) (n : String) : Option Keypoint :=
  kps.find? (fun kp => kp.name == n)

/-- `math.sqrt((a.x - b.x)**2 + (a.y - b.y)**2)`. -/
noncomputable def pdist (a b : Keypoint) : ℝ :=
  Real.sqrt ((a.x - b.x) ^ 2 + (a.y - b.y) ^ 2)

/-- `_calculate_scale_factor(keypoints, reference_length_cm)`
(cv_processor.py lines 163-180): the shoulder pair is the anchor; the
anchor fraction constant is `0.2`. -/
noncomputable def calcScaleFactor (kps : List Keypoint) (referenceLength : ℝ) : ℝ :=
  match kpFirst kps "left_shoulder", kpFirst kps "right_shoulder" with
  | some l, some r =>
      let pixelDistance := pdist l r
      if 0 < pixelDistance then referenceLength * 0.2 / pixelDistance else 1
  | _, _ => 1

/-- Pair up two optional values; models
`if 'a' in kp_dict and 'b' in kp_dict`. -/
def pairOpt {α β : Type} : Option α → Option β → Option (α × β)
  | some a, some b => some (a, b)
  | _, _ => none

/-- One conditional dictionary entry of `_calculate_measurements`: the
entry is inserted exactly when both required keypoints are present. -/
def condEntry {α : Type} (n : String) (o : Option α) (f : α → ℝ) : List (String × ℝ) :=
  match o with
  | some a => [(n, f a)]
  | none => []

/-- `_calculate_measurements(keypoints, scale_factor)`
(cv_processor.py lines 182-251).  The Python function builds a dict by a
sequence of guarded inserts with pairwise-distinct keys; the model
concatenates the corresponding conditional singleton entries in source
order.  All arithmetic in the body is total, so the surrounding
`try/except` is never exercised. -/
noncomputable def calculateMeasurements (kps : List Keypoint) (scaleFactor : ℝ) :
    List (String × ℝ) :=
  let d := kpDict kps
  condEntry "hauteur_au_garrot" (pairOpt (d "left_shoulder") (d "left_ankle"))
      (fun p => round2 (|p.1.y - p.2.y| * scaleFactor)) ++
  condEntry "body_length" (pairOpt (d "left_shoulder") (d "left_hip"))
      (fun p => round2 (pdist p.1 p.2 * scaleFactor)) ++
  condEntry "longueur_tete" (pairOpt (d "nose") (d "left_ear"))
      (fun p => round2 (pdist p.1 p.2 * scaleFactor)) ++
  condEntry "largeur_tete" (pairOpt (d "left_ear") (d "right_ear"))
      (fun p => round2 (pdist p.1 p.2 * scaleFactor)) ++
  condEntry "largeur_poitrine" (pairOpt (d "left_shoulder") (d "right_shoulder"))
      (fun p => round2 (pdist p.1 p.2 * scaleFactor)) ++
  condEntry "largeur_hanche" (pairOpt (d "left_hip") (d "right_hip"))
      (fun p => round2 (pdist p.1 p.2 * scaleFactor)) ++
  condEntry "longueur_cou" (pairOpt (d "left_shoulder") (d "nose"))
      (fun p => round2 (pdist p.1 p.2 * scaleFactor))

/-- The fixed measurement catalog of `_calculate_measurements`: measurement
name together with its required landmark names, in source order. -/
def measurementCatalog : List (String × List String) :=
  [("hauteur_au_garrot", ["left_shoulder", "left_ankle"]),
   ("body_length", ["left_shoulder", "left_hip"]),
   ("longueur_tete", ["nose", "left_ear"]),
   ("largeur_tete", ["left_ear", "right_ear"]),
   ("largeur_poitrine", ["left_shoulder", "right_shoulder"]),
   ("largeur_hanche", ["left_hip", "right_hip"]),
   ("longueur_cou", ["left_shoulder", "nose"])]

/-! ## The upload pipeline of the simple processor -/

/-- One MediaPipe pose landmark (normalized coordinates plus visibility),
as read by `_extract_keypoints` and `_calculate_confidence`. -/
structure PoseLandmark where
  x : ℝ
  y : ℝ
  z : ℝ
  visibility : ℝ

/-- One MediaPipe face detection `relative_bounding_box`, as read by
`_fallback_face_detection`. -/
structure FaceBox where
  xmin : ℝ
  ymin : ℝ
  width : ℝ
  height : ℝ

/-- The environment of one `process_uploaded_image` call: the uploaded
file size and the values returned by the external library calls the
function makes (OpenCV decode, the pose detector on the original and on
the contrast-enhanced image, the face detector), plus the optional
reference length argument.  `decoded` carries the decoded image's
`(height, width)`. -/
structure UpEnv where
  size : ℕ
  decoded : Option (ℕ × ℕ)
  poseOrig : Option (List PoseLandmark)
  poseEnh : Option (List PoseLandmark)
  face : Option FaceBox
  refLen : Option ℝ

/-- The result dictionary every path of `process_uploaded_image` and
`_fallback_face_detection` returns.  Fields that a given Python path does
not put into its dictionary keep their defaults (`error`/`scaleFactor`/
`note` are absent keys, modelled as `none`; failure paths set
`measurements = {}`, `keypoints = []`, `confidence_score = 0.0`, which the
defaults encode).  The annotated `processed_image` is not modelled. -/
structure Outcome where
  success : Bool
  error : Option String := none
  measurements : List (String × ℝ) := []
  keypoints : List Keypoint := []
  confidenceScore : ℝ := 0
  scaleFactor : Option ℝ := none
  note : Option String := none

/-- The failure dictionary shape shared by every error return of
`process_uploaded_image`. -/
def failureOutcome (msg : String) : Outcome :=
  { success := false, error := some msg }

/-- The fixed goat keypoint catalog `self.goat_keypoints` (name, MediaPipe
pose landmark index), in source order. -/
def goatKeypoints : List (String × ℕ) :=
  [("nose", 0), ("left_eye", 2), ("right_eye", 5), ("left_ear", 7),
   ("right_ear", 8), ("left_shoulder", 11), ("right_shoulder", 12),
   ("left_elbow", 13), ("right_elbow", 14), ("left_wrist", 15),
   ("right_wrist", 16), ("left_hip", 23), ("right_hip", 24),
   ("left_knee", 25), ("right_knee", 26), ("left_ankle", 27),
   ("right_ankle", 28)]

/-- `_extract_keypoints(pose_landmarks, image_shape)` (cv_processor.py
lines 145-161): for each catalog entry whose index is in range, scale the
normalized landmark to pixel coordinates. -/
noncomputable def extractKeypoints (lms : List PoseLandmark) (height width : ℕ) :
    List Keypoint :=
  goatKeypoints.filterMap (fun ni =>
    if h : ni.2 < lms.length then
      let lm := lms.get ⟨ni.2, h⟩
      some { name := ni.1, x := lm.x * width, y := lm.y * height,
             z := lm.z, visibility := lm.visibility }
    else none)

/-- `_calculate_confidence(pose_landmarks)` (cv_processor.py lines
268-272): mean landmark visibility, rounded to 3 decimals. -/
noncomputable def calcConfidence (lms : List PoseLandmark) : ℝ :=
  round3 ((lms.map (fun lm => lm.visibility)).sum / lms.length)

/-- `self._calculate_scale_factor(keypoints, reference_length_cm) if
reference_length_cm else 1.0`: Python truthiness makes both an absent and
a zero reference length fall back to `1.0`. -/
noncomputable def scaleIfRef (kps : List Keypoint) (refLen : Option ℝ) : ℝ :=
  match refLen with
  | some r => if r = 0 then 1 else calcScaleFactor kps r
  | none => 1

/-- `_estimate_goat_keypoints(face_x, face_y, face_w, face_h, img_w,
img_h)` (cv_processor.py lines 499-539): fixed proportional body-template
offsets from the face box, coordinates clamped to the image bounds, every
keypoint tagged with visibility 0.5 and confidence 0.5.  Integer
arithmetic (`//` is floor division) is carried out in `ℤ` and cast to `ℝ`
where the source mixes in a float factor. -/
noncomputable def estimateGoatKeypoints (faceX faceY faceW faceH : ℤ)
    (imgW imgH : ℕ) : List Keypoint :=
  let bodyHeight : ℤ := faceH * 3
  let ests : List (String × ℝ × ℝ) :=
    [("nose", ((faceX : ℝ), (faceY : ℝ))),
     ("left_eye", ((faceX - faceW.fdiv 4 : ℤ), (faceY - faceH.fdiv 4 : ℤ))),
     ("right_eye", ((faceX + faceW.fdiv 4 : ℤ), (faceY - faceH.fdiv 4 : ℤ))),
     ("left_ear", ((faceX - faceW.fdiv 3 : ℤ), (faceY - faceH.fdiv 2 : ℤ))),
     ("right_ear", ((faceX + faceW.fdiv 3 : ℤ), (faceY - faceH.fdiv 2 : ℤ))),
     ("left_shoulder", ((faceX - faceW.fdiv 2 : ℤ), (faceY + faceH : ℤ))),
     ("right_shoulder", ((faceX + faceW.fdiv 2 : ℤ), (faceY + faceH : ℤ))),
     ("left_hip", ((faceX - faceW.fdiv 2 : ℤ), (faceY + bodyHeight.fdiv 2 : ℤ))),
     ("right_hip", ((faceX + faceW.fdiv 2 : ℤ), (faceY + bodyHeight.fdiv 2 : ℤ))),
     ("left_knee", ((faceX - faceW.fdiv 2 : ℤ), (faceY : ℝ) + (bodyHeight : ℝ) * 0.75)),
     ("right_knee", ((faceX + faceW.fdiv 2 : ℤ), (faceY : ℝ) + (bodyHeight : ℝ) * 0.75)),
     ("left_ankle", ((faceX - faceW.fdiv 2 : ℤ), (faceY + bodyHeight : ℤ))),
     ("right_ankle", ((faceX + faceW.fdiv 2 : ℤ), (faceY + bodyHeight : ℤ)))]
  ests.map (fun e =>
    { name := e.1,
      x := max 0 (min e.2.1 ((imgW : ℝ) - 1)),
      y := max 0 (min e.2.2 ((imgH : ℝ) - 1)),
      z := 0, visibility := 0.5, confidence := some 0.5 })

/-- The informational note `_fallback_face_detection` attaches to its
success dictionary. -/
def estimationNote : String :=
  "Measurements estimated from face detection (lower accuracy)"

/-- The remediation text `_fallback_face_detection` returns when the face
detector finds nothing either. -/
def detectionRemediationMsg : String :=
  "Could not detect goat features in the image. Please try:\n" ++
  "• Ensure the goat is clearly visible and well-lit\n" ++
  "• Take photo from the side (profile view) for best results\n" ++
  "• Avoid shadows and ensure good contrast\n" ++
  "• Make sure the goat is standing upright\n" ++
  "• Try a different angle or lighting condition"

/-- `_fallback_face_detection(image_rgb, reference_length_cm)`
(cv_processor.py lines 434-497): on a face detection, estimate a full
keypoint set from the first face box and return a success outcome with
fixed confidence 0.5 and an informational note; otherwise return the
terminal detection failure with remediation text. -/
noncomputable def fallbackFaceDetection (height width : ℕ) (face : Option FaceBox)
    (refLen : Option ℝ) : Outcome :=
  match face with
  | some bbox =>
      let faceCenterX := truncI ((bbox.xmin + bbox.width / 2) * width)
      let faceCenterY := truncI ((bbox.ymin + bbox.height / 2) * height)
      let faceW := truncI (bbox.width * width)
      let faceH := truncI (bbox.height * height)
      let estimated := estimateGoatKeypoints faceCenterX faceCenterY faceW faceH
        width height
      let scaleFactor := scaleIfRef estimated refLen
      { success := true,
        measurements := calculateMeasurements estimated scaleFactor,
        keypoints := estimated,
        confidenceScore := 0.5,
        scaleFactor := some scaleFactor,
        note := some estimationNote }
  | none => failureOutcome detectionRemediationMsg

/-- The image resize step of `process_uploaded_image` (lines 321-328):
downscale when wider than 1920 or taller than 1080; returns the new
`(height, width)` of the processed image. -/
noncomputable def resizeDims (height width : ℕ) : ℕ × ℕ :=
  if 1920 < width ∨ 1080 < height then
    let s : ℝ := min (1920 / (width : ℝ)) (1080 / (height : ℝ))
    ((truncI ((height : ℝ) * s)).toNat, (truncI ((width : ℝ) * s)).toNat)
  else (height, width)

/-- The success dictionary of `process_uploaded_image` when pose landmarks
were found (lines 367-392). -/
noncomputable def poseSuccessOutcome (lms : List PoseLandmark) (height width : ℕ)
    (refLen : Option ℝ) : Outcome :=
  let kps := extractKeypoints lms height width
  let scaleFactor := scaleIfRef kps refLen
  { success := true,
    measurements := calculateMeasurements kps scaleFactor,
    keypoints := kps,
    confidenceScore := calcConfidence lms,
    scaleFactor := some scaleFactor }

/-- `process_uploaded_image(uploaded_file, reference_length_cm)`
(cv_processor.py lines 274-412): size guard, decode guard, resize, pose
detection with one enhanced-image retry, then the face-detection fallback.
The re-check of `results.pose_landmarks` at line 357 is unreachable (the
fallback path has already returned) and therefore leaves no trace in the
model; exception paths only a failing library call can trigger are not
modelled. -/
noncomputable def processUploadedImage (e : UpEnv) : Outcome :=
  if 10 * 1024 * 1024 < e.size then
    failureOutcome "Image file too large (max 10MB)"
  else
    match e.decoded with
    | none => failureOutcome
        "Could not decode uploaded image. Please check if the file is a valid image."
    | some hw =>
        let hw2 := resizeDims hw.1 hw.2
        match e.poseOrig with
        | some lms => poseSuccessOutcome lms hw2.1 hw2.2 e.refLen
        | none =>
            match e.poseEnh with
            | some lms => poseSuccessOutcome lms hw2.1 hw2.2 e.refLen
            | none => fallbackFaceDetection hw2.1 hw2.2 e.face e.refLen

/-! ## Data model of the advanced processor (`cv_processor_advanced.py`)

The advanced processor's measurement functions never touch the anatomical
points (they are constant placeholders), so the whole advanced pipeline
stays inside `ℚ` and is computable. -/

/-- The anatomical point dictionary consumed by the measurement functions
and `_add_landmark_noise`: name to optional pixel pair. -/
abbrev PointMap : Type := List (String × Option (ℚ × ℚ))

/-- `_calculate_wither_height` (line 545): placeholder constant. -/
def calculateWitherHeight (_points : PointMap) (scale : ℚ) : ℚ := 65.0 * scale

/-- `_calculate_back_height`: placeholder constant. -/
def calculateBackHeight (_points : PointMap) (scale : ℚ) : ℚ := 62.0 * scale

/-- `_calculate_sternum_height`: placeholder constant. -/
def calculateSternumHeight (_points : PointMap) (scale : ℚ) : ℚ := 35.0 * scale

/-- `_calculate_rump_height`: placeholder constant. -/
def calculateRumpHeight (_points : PointMap) (scale : ℚ) : ℚ := 66.0 * scale

/-- `_calculate_body_length`: placeholder constant. -/
def calculateBodyLength (_points : PointMap) (scale : ℚ) : ℚ := 85.0 * scale

/-- `_calculate_heart_girth`: placeholder constant. -/
def calculateHeartGirth (_points : PointMap) (scale : ℚ) : ℚ := 95.0 * scale

/-- `_calculate_chest_circumference`: placeholder constant. -/
def calculateChestCircumference (_points : PointMap) (scale : ℚ) : ℚ := 92.0 * scale

/-- `_calculate_chest_width`: placeholder constant. -/
def calculateChestWidth (_points : PointMap) (scale : ℚ) : ℚ := 25.0 * scale

/-- `_calculate_rump_width`: placeholder constant. -/
def calculateRumpWidth (_points : PointMap) (scale : ℚ) : ℚ := 23.0 * scale

/-- `_calculate_head_width`: placeholder constant. -/
def calculateHeadWidth (_points : PointMap) (scale : ℚ) : ℚ := 15.0 * scale

/-- `_calculate_head_length`: placeholder constant. -/
def calculateHeadLength (_points : PointMap) (scale : ℚ) : ℚ := 22.0 * scale

/-- `_calculate_ear_length`: placeholder constant. -/
def calculateEarLength (_points : PointMap) (scale : ℚ) : ℚ := 12.0 * scale

/-- `_calculate_neck_length`: placeholder constant. -/
def calculateNeckLength (_points : PointMap) (scale : ℚ) : ℚ := 18.0 * scale

/-- `_calculate_neck_girth`: placeholder constant. -/
def calculateNeckGirth (_points : PointMap) (scale : ℚ) : ℚ := 45.0 * scale

/-- `_calculate_tail_length`: placeholder constant. -/
def calculateTailLength (_points : PointMap) (scale : ℚ) : ℚ := 25.0 * scale

/-- `_get_measurement_functions` (lines 358-376): the fixed catalog of the
15 named measurement functions, in source order. -/
def measurementFunctions : List (String × (PointMap → ℚ → ℚ)) :=
  [("hauteur_au_garrot", calculateWitherHeight),
   ("hauteur_au_dos", calculateBackHeight),
   ("hauteur_au_sternum", calculateSternumHeight),
   ("hauteur_au_sacrum", calculateRumpHeight),
   ("body_length", calculateBodyLength),
   ("tour_de_poitrine", calculateHeartGirth),
   ("perimetre_thoracique", calculateChestCircumference),
   ("largeur_poitrine", calculateChestWidth),
   ("largeur_hanche", calculateRumpWidth),
   ("largeur_tete", calculateHeadWidth),
   ("longueur_tete", calculateHeadLength),
   ("longueur_oreille", calculateEarLength),
   ("longueur_cou", calculateNeckLength),
   ("tour_du_cou", calculateNeckGirth),
   ("longueur_queue", calculateTailLength)]

/-- The literal constants the 15 catalog functions multiply by the scale,
in catalog order. -/
def measurementConstants : List ℚ :=
  [65, 62, 35, 66, 85, 95, 92, 25, 23, 15, 22, 12, 18, 45, 25]

/-- `_add_landmark_noise(points)` (lines 511-521): shift every present
point by that trial's random draw for its name; `draw n` holds the pair of
`np.random.normal(0, 2)` samples the source draws for point `n`.  Absent
points stay absent. -/
def addLandmarkNoise (draw : String → ℚ × ℚ) (points : PointMap) : PointMap :=
  points.map (fun np_ =>
    match np_.2 with
    | some q => (np_.1, some (q.1 + (draw np_.1).1, q.2 + (draw np_.1).2))
    | none => (np_.1, none))

/-- Mean of a list of rationals, `np.mean`. -/
def listMean (l : List ℚ) : ℚ := l.sum / l.length

/-- Population variance of a list of rationals.  `np.std(values)` is the
square root of this quantity; since the square root of a rational is not
rational, the model reports the variance.  For `v ≥ 0`, `sqrt v = 0` holds
iff `v = 0` and `sqrt v ≥ 0` holds iff `v ≥ 0`, so every statement about
the reported standard deviation transfers to the variance. -/
def listVar (l : List ℚ) : ℚ :=
  (l.map (fun x => (x - listMean l) ^ 2)).sum / l.length

/-- The 50 bootstrap trial values the loop body of
`_extract_measurements_with_uncertainty` collects for one catalog entry
(lines 318-325): perturb the points with the trial's draws, apply the
measurement function, keep the value when it is `> 0`. -/
def bootstrapValues (calcFn : PointMap → ℚ → ℚ) (draws : Fin 50 → String → ℚ × ℚ)
    (points : PointMap) (scale : ℚ) : List ℚ :=
  ((List.finRange 50).map (fun i => calcFn (addLandmarkNoise (draws i) points) scale)).filter
    (fun v => 0 < v)

/-- The per-measurement result of the bootstrap loop (lines 327-332):
`(mean, variance)` over the valid trials, or `(none, none)` when no trial
produced a valid value.  The second component models `np.std` through its
square, see `listVar`. -/
def bootstrapOne (calcFn : PointMap → ℚ → ℚ) (draws : Fin 50 → String → ℚ × ℚ)
    (points : PointMap) (scale : ℚ) : Option ℚ × Option ℚ :=
  let values := bootstrapValues calcFn draws points scale
  if values.isEmpty then (none, none)
  else (some (listMean values), some (listVar values))

/-- The all-zero noise draws: the injected per-landmark noise stddev
forced to 0. -/
def zeroDraws : Fin 50 → String → ℚ × ℚ := fun _ _ => (0, 0)

/-- `_extract_measurements_with_uncertainty`'s catalog loop (lines
317-337): one bootstrap result per catalog entry. -/
def extractMeasurementsWithUncertainty (draws : Fin 50 → String → ℚ × ℚ)
    (points : PointMap) (scale : ℚ) :
    List (String × (Option ℚ × Option ℚ)) :=
  measurementFunctions.map (fun nf => (nf.1, bootstrapOne nf.2 draws points scale))

/-! ## Advanced validator, confidence scorer and outcome control flow -/

/-- Dictionary lookup with Python truthiness on the stored value:
`values.get(n)` used in a boolean context is true exactly when the key is
present and its float value is nonzero. -/
def dgetQ (vals : List (String × Option ℚ)) (n : String) : Option ℚ :=
  match vals.reverse.find? (fun p => p.1 == n) with
  | some p => p.2
  | none => none

/-- Python truthiness of `values.get(n)`. -/
def truthyQ (o : Option ℚ) : Bool :=
  match o with
  | some x => x != 0
  | none => false

/-- The result dictionary of `_validate_measurements`. -/
structure ValidationResult where
  isValid : Bool
  warnings : List String
  consistencyScore : ℚ

/-- `_validate_measurements(measurements, breed)` (cv_processor_advanced.py
lines 378-420).  `anomalyFlagged` models the value of
`self.anomaly_detector.fit_predict([measurement_vector])[0] == -1` (the
inner `try/except` turns a failing fit into no warning, which `false`
covers).  The ratio warning's interpolated number (`f"... ({ratio:.2f})
..."`) is dropped from the modelled warning string; only the warning's
presence matters downstream. -/
def validateMeasurements (vals : List (String × Option ℚ)) (breed : Option String)
    (anomalyFlagged : Bool) : ValidationResult :=
  let w1 : List String :=
    match dgetQ vals "hauteur_au_garrot", dgetQ vals "body_length" with
    | some h, some bl =>
        if h ≠ 0 ∧ bl ≠ 0 then
          let r := bl / h
          if r < 0.8 ∨ 2.0 < r then ["Body length to height ratio seems unusual"] else []
        else []
    | _, _ => []
  let w2 : List String :=
    match dgetQ vals "largeur_poitrine", dgetQ vals "largeur_hanche" with
    | some c, some hp =>
        if c ≠ 0 ∧ hp ≠ 0 then
          if c * 1.5 < hp then ["Hip width seems disproportionately large compared to chest"]
          else []
        else []
    | _, _ => []
  let breedLower := breed.map String.toLower
  let w3 : List String :=
    if (breedLower = some "boer" ∨ breedLower = some "nubian" ∨ breedLower = some "alpine") then
      match dgetQ vals "hauteur_au_garrot" with
      | some h =>
          if h ≠ 0 then
            if breedLower = some "boer" ∧ 80 < h then ["Height seems large for Boer breed"]
            else if breedLower = some "nubian" ∧ h < 60 then
              ["Height seems small for Nubian breed"]
            else []
          else []
      | none => []
    else []
  let vector := vals.filterMap (fun p => p.2)
  let w4 : List String :=
    if 5 < vector.length ∧ anomalyFlagged then
      ["Some measurements detected as statistical outliers"]
    else []
  let warnings := w1 ++ w2 ++ w3 ++ w4
  { isValid := warnings.isEmpty,
    warnings := warnings,
    consistencyScore := max 0 (1.0 - warnings.length * 0.2) }

/-- `_calculate_confidence_score(detection_results, measurements,
quality_score, validation_result)` (lines 422-457).  `agreement?` is
`detection_results.get('agreement_score', 0.5)` in optional form and is
read twice (pose confidence and ensemble confidence); `consistency?` is
`validation_result.get('consistency_score', 0.5)`. -/
def calcConfidenceScore (agreement? : Option ℚ) (vals : List (String × Option ℚ))
    (qualityScore : ℚ) (consistency? : Option ℚ) : ℚ :=
  let poseConf := agreement?.getD 0.5
  let totalMeasurements := vals.length
  let successfulMeasurements := (vals.filter (fun p => p.2.isSome)).length
  let landmarkConf : ℚ :=
    if 0 < totalMeasurements then (successfulMeasurements : ℚ) / totalMeasurements else 0
  let imageConf := qualityScore
  let anatomyConf := consistency?.getD 0.5
  let ensembleConf := agreement?.getD 0.5
  max 0.0 (min 1.0
    (poseConf * 0.3 + landmarkConf * 0.25 + imageConf * 0.2 +
     anatomyConf * 0.15 + ensembleConf * 0.1))

/-- The environment of one `process_goat_image_advanced` call: what the
external calls return.  `preprocessed` is the `(height, width)` of the
image `_preprocess_image` produces, `none` when decoding failed; `quality`
is the score `_assess_image_quality` computes from the pixels; the four
detection booleans say whether each ensemble member returned a result;
`draws` holds the `np.random.normal(0, 2)` samples of the 50 bootstrap
trials; `anomalyFlagged` is the IsolationForest verdict. -/
structure AdvEnv where
  preprocessed : Option (ℕ × ℕ)
  quality : ℚ
  poseHigh : Bool
  poseBroad : Bool
  faceFound : Bool
  segFound : Bool
  draws : Fin 50 → String → ℚ × ℚ
  anomalyFlagged : Bool
  refLen : Option ℚ
  breed : Option String

/-- `_ensemble_detection` found at least one result (lines 274-275 decide
failure exactly when the results list is empty). -/
def ensembleFound (e : AdvEnv) : Bool :=
  e.poseHigh || e.poseBroad || e.faceFound || e.segFound

/-- The number of ensemble members that produced a result. -/
def ensembleCount (e : AdvEnv) : ℕ :=
  (e.poseHigh.toNat) + (e.poseBroad.toNat) + (e.faceFound.toNat) + (e.segFound.toNat)

/-- `_calculate_ensemble_agreement` (lines 496-499): `0.8` when more than
one model answered, else `0.6`. -/
def agreementScore (e : AdvEnv) : ℚ :=
  if 1 < ensembleCount e then 0.8 else 0.6

/-- `_extract_anatomical_points` (lines 506-509) returns the empty
dictionary in the source; the bootstrap loop therefore runs over no
anatomical points. -/
def extractAnatomicalPoints : PointMap := []

/-- The scale factor of `_extract_measurements_with_uncertainty` (lines
303-308): `reference_length / 100` when a truthy reference is supplied,
else `max(h, w) / 2000`. -/
def advScaleFactor (height width : ℕ) (refLen : Option ℚ) : ℚ :=
  match refLen with
  | some r => if r = 0 then (max height width : ℚ) / 2000 else r / 100
  | none => (max height width : ℚ) / 2000

/-- The result dictionary of `process_goat_image_advanced`.  Fields a
failure path does not set keep their defaults; `qualityScore` is `none`
for the two failure dictionaries that omit the `quality_score` key.
`keypoints` is omitted: `_landmarks_to_keypoints` returns `[]` in the
source, and the annotated image is not modelled. -/
structure AdvOutcome where
  success : Bool
  error : Option String := none
  values : List (String × Option ℚ) := []
  uncertainties : List (String × Option ℚ) := []
  confidenceScore : ℚ := 0
  qualityScore : Option ℚ := none
  breedConfidence : ℚ := 0
  validationWarnings : List String := []
  agreement : Option ℚ := none

/-- `process_goat_image_advanced(image_data, reference_length, breed)`
(cv_processor_advanced.py lines 102-164): preprocess guard, quality guard
at threshold 0.3, ensemble detection guard, then the success outcome
assembled from measurements, validation and the confidence score.  No
`*_breed_model.joblib` files ship in the repository, so
`self.breed_models` is empty and `_apply_breed_corrections` is never
applied (`breed_confidence = 0.0`). -/
def processGoatImageAdvanced (e : AdvEnv) : AdvOutcome :=
  match e.preprocessed with
  | none => { success := false, error := some "Image preprocessing failed" }
  | some hw =>
      if e.quality < 0.3 then
        { success := false,
          error := some "Image quality too low for accurate measurements",
          qualityScore := some e.quality }
      else if !ensembleFound e then
        { success := false, error := some "No landmarks detected by any model" }
      else
        let scaleFactor := advScaleFactor hw.1 hw.2 e.refLen
        let results := extractMeasurementsWithUncertainty e.draws
          extractAnatomicalPoints scaleFactor
        let vals := results.map (fun p => (p.1, p.2.1))
        let uncs := results.map (fun p => (p.1, p.2.2))
        let validation := validateMeasurements vals e.breed e.anomalyFlagged
        let overall := calcConfidenceScore (some (agreementScore e)) vals e.quality
          (some validation.consistencyScore)
        { success := true,
          values := vals,
          uncertainties := uncs,
          confidenceScore := overall,
          qualityScore := some e.quality,
          breedConfidence := 0,
          validationWarnings := validation.warnings,
          agreement := some (agreementScore e) }

/-! ## Helper lemmas -/

/-- First-hit combination of two optional values, the shape of a lookup
over an append of association lists. -/
def dfirst {α : Type} : Option α → Option α → Option α
  | some v, _ => some v
  | none, b => b

@[simp]
theorem dfirst_some {α : Type} (v : α) (b : Option α) : dfirst (some v) b = some v := rfl

@[simp]
theorem dfirst_none {α : Type} (b : Option α) : dfirst none b = b := rfl

@[simp]
theorem dfirst_none_right {α : Type} (a : Option α) : dfirst a none = a := by
  cases a <;> rfl

theorem lookup_append {β : Type} (n : String) (A B : List (String × β)) :
    List.lookup n (A ++ B) = dfirst (List.lookup n A) (List.lookup n B) := by
  induction A with
  | nil => rfl
  | cons a as ih =>
      rcases a with ⟨k, v⟩
      by_cases h : (n == k) = true
      · simp [List.lookup, h]
      · simp only [List.cons_append, List.lookup, h]
        simpa [h] using ih

theorem lookup_condEntry {α : Type} (n m : String) (o : Option α) (f : α → ℝ) :
    List.lookup n (condEntry m o f) = if (n == m) = true then o.map f else none := by
  cases o with
  | none => simp [condEntry]
  | some a =>
      by_cases h : (n == m) = true <;> simp [condEntry, List.lookup, h]

@[simp]
theorem pairOpt_isSome {α β : Type} (a : Option α) (b : Option β) :
    (pairOpt a b).isSome = (a.isSome && b.isSome) := by
  cases a <;> cases b <;> rfl

/-! ## Claims about the scale calibrator -/

/-- A concrete detected keypoint used in witnesses. -/
def kpAt (n : String) (x y : ℝ) : Keypoint :=
  { name := n, x := x, y := y, z := 0, visibility := 1 }

/-- The witness landmark set of the scale-calibration scenario: shoulders
50 pixels apart. -/
def kpsScaleEx : List Keypoint :=
  [kpAt "left_shoulder" 0 0, kpAt "right_shoulder" 50 0]

/-- C1: with both shoulder anchors present and pixel distance `d > 0`,
`_calculate_scale_factor` returns `referenceLength * 0.2 / d` (and doubles
when the reference doubles); with the anchor pair missing or `d = 0` it
returns `1.0`; the concrete scenario `referenceLength = 100`, `d = 50`
yields `0.4`. -/
theorem C1_scale_calibration :
    (∀ (kps : List Keypoint) (ref : ℝ) (l r : Keypoint),
        0 < ref →
        kpFirst kps "left_shoulder" = some l →
        kpFirst kps "right_shoulder" = some r →
        0 < pdist l r →
        calcScaleFactor kps ref = ref * 0.2 / pdist l r ∧
        calcScaleFactor kps (2 * ref) = 2 * calcScaleFactor kps ref) ∧
    (∀ (kps : List Keypoint) (ref : ℝ),
        kpFirst kps "left_shoulder" = none ∨ kpFirst kps "right_shoulder" = none →
        calcScaleFactor kps ref = 1) ∧
    (∀ (kps : List Keypoint) (ref : ℝ) (l r : Keypoint),
        kpFirst kps "left_shoulder" = some l →
        kpFirst kps "right_shoulder" = some r →
        pdist l r = 0 →
        calcScaleFactor kps ref = 1) ∧
    calcScaleFactor kpsScaleEx 100 = 0.4 := by
  refine ⟨?_, ?_, ?_, ?_⟩
  · intro kps ref l r _ hl hr hd
    constructor
    · simp only [calcScaleFactor, hl, hr, if_pos hd]
    · simp only [calcScaleFactor, hl, hr, if_pos hd]
      ring
  · intro kps ref h
    rcases h with h | h
    · simp [calcScaleFactor, h]
    · cases hl : kpFirst kps "left_shoulder" <;> simp [calcScaleFactor, h, hl]
  · intro kps ref l r hl hr hd
    simp [calcScaleFactor, hl, hr, hd]
  · have hfl : kpFirst kpsScaleEx "left_shoulder" = some (kpAt "left_shoulder" 0 0) := rfl
    have hfr : kpFirst kpsScaleEx "right_shoulder" = some (kpAt "right_shoulder" 50 0) := rfl
    have hd : pdist (kpAt "left_shoulder" 0 0) (kpAt "right_shoulder" 50 0) = 50 := by
      simp only [pdist, kpAt]
      rw [show ((0 : ℝ) - 50) ^ 2 + ((0 : ℝ) - 0) ^ 2 = 50 ^ 2 by norm_num]
      exact Real.sqrt_sq (by norm_num)
    simp only [calcScaleFactor, hfl, hfr, hd]
    norm_num

/-- Witness for C1: the first conjunct applied to the concrete shoulder
pair 50 pixels apart with reference length 100. -/
theorem C1_scale_calibration_witness :
    calcScaleFactor kpsScaleEx 100 =
      100 * 0.2 / pdist (kpAt "left_shoulder" 0 0) (kpAt "right_shoulder" 50 0) ∧
    calcScaleFactor kpsScaleEx (2 * 100) = 2 * calcScaleFactor kpsScaleEx 100 := by
  have hd : (0 : ℝ) < pdist (kpAt "left_shoulder" 0 0) (kpAt "right_shoulder" 50 0) := by
    simp only [pdist, kpAt]
    apply Real.sqrt_pos.mpr
    norm_num
  exact C1_scale_calibration.1 kpsScaleEx 100 _ _ (by norm_num) rfl rfl hd

/-! ## Claims about the measurement calculator -/

/-- C2: for every landmark set and scale factor and every catalog
measurement, the computed measurement map has an entry for that
measurement exactly when all its required landmarks are present: a missing
landmark makes that entry (and only that entry) null, while every other
catalog measurement whose landmarks are present is still computed.  The
embedded `calculateMeasurements` is total, so no input can raise. -/
theorem C2_missing_landmark_yields_null :
    ∀ (kps : List Keypoint) (s : ℝ) (nm : String) (req : List String),
      (nm, req) ∈ measurementCatalog →
      ((List.lookup nm (calculateMeasurements kps s)).isSome = true ↔
        ∀ r ∈ req, (kpDict kps r).isSome = true) := by
  intro kps s nm req hmem
  simp only [measurementCatalog, List.mem_cons, List.not_mem_nil, or_false,
    Prod.mk.injEq] at hmem
  rcases hmem with ⟨h1, h2⟩ | ⟨h1, h2⟩ | ⟨h1, h2⟩ | ⟨h1, h2⟩ | ⟨h1, h2⟩ |
    ⟨h1, h2⟩ | ⟨h1, h2⟩ <;> subst h1 <;> subst h2 <;>
    simp [calculateMeasurements, lookup_append, lookup_condEntry,
      Option.isSome_map', Bool.and_eq_true]

/-- Witness for C2: with only the two shoulders present, the chest-width
entry is computed while the wither-height entry (whose `left_ankle` is
missing) is null. -/
theorem C2_missing_landmark_yields_null_witness :
    (("largeur_poitrine", ["left_shoulder", "right_shoulder"]) ∈ measurementCatalog ∧
      (("hauteur_au_garrot", ["left_shoulder", "left_ankle"]) ∈ measurementCatalog)) ∧
    ((List.lookup "largeur_poitrine" (calculateMeasurements kpsScaleEx 1)).isSome = true ↔
      ∀ r ∈ ["left_shoulder", "right_shoulder"], (kpDict kpsScaleEx r).isSome = true) ∧
    ((List.lookup "hauteur_au_garrot" (calculateMeasurements kpsScaleEx 1)).isSome = true ↔
      ∀ r ∈ ["left_shoulder", "left_ankle"], (kpDict kpsScaleEx r).isSome = true) := by
  refine ⟨⟨by simp [measurementCatalog], by simp [measurementCatalog]⟩, ?_, ?_⟩
  · exact C2_missing_landmark_yields_null kpsScaleEx 1 _ _ (by simp [measurementCatalog])
  · exact C2_missing_landmark_yields_null kpsScaleEx 1 _ _ (by simp [measurementCatalog])

theorem rndHalfEven_intCast (n : ℤ) : rndHalfEven (n : ℝ) = n := by
  have hf : ⌊(n : ℝ)⌋ = n := Int.floor_intCast n
  simp only [rndHalfEven, hf]
  rw [if_pos]
  rw [sub_self]
  norm_num

/-- The landmark set of the concrete chest-width scenario. -/
def kpsChest : List Keypoint :=
  [kpAt "left_shoulder" 100 200, kpAt "right_shoulder" 300 200]

/-- C8: with `left_shoulder = (100, 200)`, `right_shoulder = (300, 200)`
and scale factor `0.5`, the chest-width entry of the measurement map is
the Euclidean distance `200` times the scale factor: exactly `100.0`. -/
theorem C8_chest_width_concrete :
    List.lookup "largeur_poitrine" (calculateMeasurements kpsChest 0.5) = some 100 := by
  have hls : kpDict kpsChest "left_shoulder" = some (kpAt "left_shoulder" 100 200) := rfl
  have hrs : kpDict kpsChest "right_shoulder" = some (kpAt "right_shoulder" 300 200) := rfl
  have hla : kpDict kpsChest "left_ankle" = none := rfl
  have hlh : kpDict kpsChest "left_hip" = none := rfl
  have hno : kpDict kpsChest "nose" = none := rfl
  have hle : kpDict kpsChest "left_ear" = none := rfl
  have hre : kpDict kpsChest "right_ear" = none := rfl
  have hrh : kpDict kpsChest "right_hip" = none := rfl
  have hd : pdist (kpAt "left_shoulder" 100 200) (kpAt "right_shoulder" 300 200) = 200 := by
    simp only [pdist, kpAt]
    rw [show ((100 : ℝ) - 300) ^ 2 + ((200 : ℝ) - 200) ^ 2 = 200 ^ 2 by norm_num]
    exact Real.sqrt_sq (by norm_num)
  simp only [calculateMeasurements, lookup_append, lookup_condEntry,
    hls, hrs, hla, hlh, hno, hle, hre, hrh]
  simp only [pairOpt, Option.map_some']
  norm_num [hd]
  rw [round2, show (100 : ℝ) * 100 = ((10000 : ℤ) : ℝ) by norm_num, rndHalfEven_intCast]
  norm_num

/-! ## Claims about the fallback chain -/

/-- C4: when the primary pose detection and its single enhanced-image
retry both fail but the face detector finds an anchor, the outcome is a
success, its confidence is the conservative fixed `0.5` (hence `≤ 0.5`),
an informational note is attached, and every returned landmark carries the
estimated-origin marker: the `confidence` key set to `0.5` (detected
landmarks have no such key) with visibility `0.5`. -/
theorem C4_fallback_estimated :
    ∀ (e : UpEnv) (h w : ℕ) (b : FaceBox),
      e.size ≤ 10 * 1024 * 1024 →
      e.decoded = some (h, w) →
      e.poseOrig = none →
      e.poseEnh = none →
      e.face = some b →
      (processUploadedImage e).success = true ∧
      (processUploadedImage e).confidenceScore = 0.5 ∧
      (processUploadedImage e).confidenceScore ≤ 0.5 ∧
      (processUploadedImage e).note = some estimationNote ∧
      ∀ kp ∈ (processUploadedImage e).keypoints,
        kp.confidence = some 0.5 ∧ kp.visibility = 0.5 := by
  intro e h w b hsz hdec hpo hpe hf
  have hne : ¬ (10 * 1024 * 1024 < e.size) := not_lt.mpr hsz
  simp only [processUploadedImage, if_neg hne, hdec, hpo, hpe, hf,
    fallbackFaceDetection]
  refine ⟨by trivial, by trivial, by norm_num, by trivial, ?_⟩
  intro kp hkp
  simp only [estimateGoatKeypoints, List.mem_map] at hkp
  obtain ⟨a, _, rfl⟩ := hkp
  exact ⟨rfl, rfl⟩

/-- The witness environment for C4: small file, decodable 100×100 image,
both pose attempts fail, face detector finds a centered box. -/
def upEnvFaceEx : UpEnv :=
  { size := 1000, decoded := some (100, 100), poseOrig := none, poseEnh := none,
    face := some { xmin := 0.25, ymin := 0.25, width := 0.5, height := 0.5 },
    refLen := none }

/-- Witness for C4 at the concrete environment `upEnvFaceEx`. -/
theorem C4_fallback_estimated_witness :
    upEnvFaceEx.size ≤ 10 * 1024 * 1024 ∧
    ((processUploadedImage upEnvFaceEx).success = true ∧
      (processUploadedImage upEnvFaceEx).confidenceScore = 0.5 ∧
      (processUploadedImage upEnvFaceEx).confidenceScore ≤ 0.5 ∧
      (processUploadedImage upEnvFaceEx).note = some estimationNote ∧
      ∀ kp ∈ (processUploadedImage upEnvFaceEx).keypoints,
        kp.confidence = some 0.5 ∧ kp.visibility = 0.5) :=
  ⟨by norm_num [upEnvFaceEx],
   C4_fallback_estimated upEnvFaceEx 100 100
     { xmin := 0.25, ymin := 0.25, width := 0.5, height := 0.5 }
     (by norm_num [upEnvFaceEx]) rfl rfl rfl rfl⟩

/-- C5: when every detection strategy, the face fallback included, finds
nothing, the outcome is the terminal detection failure: `success = false`,
the error carries the remediation text (lighting, viewing angle,
occlusion, resolution), and landmarks, measurements and confidence are
empty respectively zero. -/
theorem C5_detection_failure :
    ∀ (e : UpEnv) (h w : ℕ),
      e.size ≤ 10 * 1024 * 1024 →
      e.decoded = some (h, w) →
      e.poseOrig = none →
      e.poseEnh = none →
      e.face = none →
      (processUploadedImage e).success = false ∧
      (processUploadedImage e).error = some detectionRemediationMsg ∧
      (processUploadedImage e).measurements = [] ∧
      (processUploadedImage e).keypoints = [] ∧
      (processUploadedImage e).confidenceScore = 0 := by
  intro e h w hsz hdec hpo hpe hf
  have hne : ¬ (10 * 1024 * 1024 < e.size) := not_lt.mpr hsz
  simp only [processUploadedImage, if_neg hne, hdec, hpo, hpe, hf,
    fallbackFaceDetection, failureOutcome]
  exact ⟨by trivial, by trivial, by trivial, by trivial, by trivial⟩

/-- The witness environment for C5: like `upEnvFaceEx` but the face
detector also finds nothing. -/
def upEnvNoDetEx : UpEnv :=
  { size := 1000, decoded := some (100, 100), poseOrig := none, poseEnh := none,
    face := none, refLen := none }

/-- Witness for C5 at the concrete environment `upEnvNoDetEx`. -/
theorem C5_detection_failure_witness :
    upEnvNoDetEx.size ≤ 10 * 1024 * 1024 ∧
    ((processUploadedImage upEnvNoDetEx).success = false ∧
      (processUploadedImage upEnvNoDetEx).error = some detectionRemediationMsg ∧
      (processUploadedImage upEnvNoDetEx).measurements = [] ∧
      (processUploadedImage upEnvNoDetEx).keypoints = [] ∧
      (processUploadedImage upEnvNoDetEx).confidenceScore = 0) :=
  ⟨by norm_num [upEnvNoDetEx],
   C5_detection_failure upEnvNoDetEx 100 100 (by norm_num [upEnvNoDetEx]) rfl rfl rfl rfl⟩

/-! ## Claims about the outcome taxonomy -/

/-- C10: `process_uploaded_image` is total (the embedding is a total
function on every environment, mirroring the catch-all error handling of
the source), and every failure outcome carries a non-empty error message,
empty measurements and keypoints, and confidence `0.0`. -/
theorem C10_failure_outcome_shape :
    ∀ e : UpEnv, (processUploadedImage e).success = false →
      (processUploadedImage e).error.getD "" ≠ "" ∧
      (processUploadedImage e).measurements = [] ∧
      (processUploadedImage e).keypoints = [] ∧
      (processUploadedImage e).confidenceScore = 0 := by
  intro e
  by_cases hsz : 10 * 1024 * 1024 < e.size
  · intro _
    simp only [processUploadedImage, if_pos hsz, failureOutcome]
    exact ⟨by decide, by trivial, by trivial, by trivial⟩
  · cases hdec : e.decoded with
    | none =>
        intro _
        simp only [processUploadedImage, if_neg hsz, hdec, failureOutcome]
        exact ⟨by decide, by trivial, by trivial, by trivial⟩
    | some hw =>
        cases hpo : e.poseOrig with
        | some lms =>
            intro hfalse
            simp only [processUploadedImage, if_neg hsz, hdec, hpo,
              poseSuccessOutcome] at hfalse
            exact Bool.noConfusion hfalse
        | none =>
            cases hpe : e.poseEnh with
            | some lms =>
                intro hfalse
                simp only [processUploadedImage, if_neg hsz, hdec, hpo, hpe,
                  poseSuccessOutcome] at hfalse
                exact Bool.noConfusion hfalse
            | none =>
                cases hf : e.face with
                | some b =>
                    intro hfalse
                    simp only [processUploadedImage, if_neg hsz, hdec, hpo, hpe, hf,
                      fallbackFaceDetection] at hfalse
                    exact Bool.noConfusion hfalse
                | none =>
                    intro _
                    simp only [processUploadedImage, if_neg hsz, hdec, hpo, hpe, hf,
                      fallbackFaceDetection, failureOutcome]
                    exact ⟨by decide, by trivial, by trivial, by trivial⟩

/-- The witness environment for C10: an oversized upload. -/
def upEnvOversizedEx : UpEnv :=
  { size := 10 * 1024 * 1024 + 1, decoded := none, poseOrig := none, poseEnh := none,
    face := none, refLen := none }

/-- Witness for C10 at the concrete oversized upload. -/
theorem C10_failure_outcome_shape_witness :
    (processUploadedImage upEnvOversizedEx).success = false ∧
    ((processUploadedImage upEnvOversizedEx).error.getD "" ≠ "" ∧
      (processUploadedImage upEnvOversizedEx).measurements = [] ∧
      (processUploadedImage upEnvOversizedEx).keypoints = [] ∧
      (processUploadedImage upEnvOversizedEx).confidenceScore = 0) :=
  ⟨rfl, C10_failure_outcome_shape upEnvOversizedEx rfl⟩

/-- The counterexample environment for C3: a decodable 500×500 image whose
quality score is 0.2 while the high-accuracy pose detector succeeds. -/
def advEnvLowQuality : AdvEnv :=
  { preprocessed := some (500, 500), quality := 0.2, poseHigh := true,
    poseBroad := false, faceFound := false, segFound := false,
    draws := fun _ _ => (0, 0), anomalyFlagged := false, refLen := none,
    breed := none }

/-- Counterexample to C3 as stated: the advanced processor turns a
low-quality image into a failure outcome even though the input decoded
fine (no input error) and a detection strategy found an anchor (no
detection failure) — low image quality does not degrade gracefully inside
a success outcome. -/
theorem C3_counterexample_low_quality :
    (processGoatImageAdvanced advEnvLowQuality).success = false ∧
    advEnvLowQuality.preprocessed.isSome = true ∧
    ensembleFound advEnvLowQuality = true := by
  refine ⟨?_, rfl, rfl⟩
  norm_num [processGoatImageAdvanced, advEnvLowQuality]

/-- C3 (amended): the failure outcomes of the two pipelines are exactly:
input error (undecodable or oversized image), detection failure (no
strategy finds any anchor), and — in the advanced processor only — an
image-quality score below `0.3`.  Every other condition (calibration
problems, per-measurement gaps, validation warnings) stays inside a
success outcome. -/
theorem C3_failure_conditions_amended :
    (∀ e : AdvEnv, (processGoatImageAdvanced e).success = false ↔
      (e.preprocessed = none ∨ e.quality < 0.3 ∨ ensembleFound e = false)) ∧
    (∀ e : UpEnv, (processUploadedImage e).success = false ↔
      (10 * 1024 * 1024 < e.size ∨ e.decoded = none ∨
        (e.poseOrig = none ∧ e.poseEnh = none ∧ e.face = none))) := by
  constructor
  · intro e
    cases hp : e.preprocessed with
    | none => simp [processGoatImageAdvanced, hp]
    | some hw =>
        by_cases hq : e.quality < 0.3
        · simp [processGoatImageAdvanced, hp, hq]
        · cases hf : ensembleFound e <;>
            simp [processGoatImageAdvanced, hp, hq, hf]
  · intro e
    by_cases hsz : 10 * 1024 * 1024 < e.size
    · simp only [processUploadedImage, if_pos hsz, failureOutcome]
      simp [hsz]
    · cases hdec : e.decoded with
      | none => simp [processUploadedImage, if_neg hsz, hdec, failureOutcome, hsz]
      | some hw =>
          cases hpo : e.poseOrig with
          | some lms =>
              simp [processUploadedImage, if_neg hsz, hdec, hpo,
                poseSuccessOutcome, hsz]
          | none =>
              cases hpe : e.poseEnh with
              | some lms =>
                  simp [processUploadedImage, if_neg hsz, hdec, hpo, hpe,
                    poseSuccessOutcome, hsz]
              | none =>
                  cases hf : e.face with
                  | some b =>
                      simp [processUploadedImage, if_neg hsz, hdec, hpo, hpe, hf,
                        fallbackFaceDetection, hsz]
                  | none =>
                      simp [processUploadedImage, if_neg hsz, hdec, hpo, hpe, hf,
                        fallbackFaceDetection, failureOutcome, hsz]

/-! ## Claims about the confidence scorer -/

theorem landmarkConf_div (vals : List (String × Option ℚ)) :
    (if 0 < vals.length then
        ((vals.filter (fun p => p.2.isSome)).length : ℚ) / vals.length
      else 0) =
      ((vals.filter (fun p => p.2.isSome)).length : ℚ) / vals.length := by
  split
  · rfl
  · rename_i h
    rw [Nat.eq_zero_of_not_pos h]
    simp

theorem validate_consistency (vals : List (String × Option ℚ)) (breed : Option String)
    (flag : Bool) :
    (validateMeasurements vals breed flag).consistencyScore =
      max 0 (1.0 - ((validateMeasurements vals breed flag).warnings.length : ℚ) * 0.2) :=
  rfl

theorem clampQ_congr (x y : ℚ) (h : x = y) :
    max 0.0 (min 1.0 x) = max 0 (min 1 y) := by
  rw [h]
  norm_num

/-- C6: the overall confidence score is the weighted sum
`0.30·detectionConfidence + 0.25·landmarkCompleteness + 0.20·imageQuality
+ 0.15·anatomicalConsistency + 0.10·ensembleAgreement` clamped to `[0,1]`,
where `landmarkCompleteness` is the fraction of catalog measurements that
are non-null and `anatomicalConsistency = max(0, 1 − 0.2·warningCount)`;
both `detectionConfidence` and `ensembleAgreement` read the detection
result's agreement score. -/
theorem C6_confidence_score_formula :
    ∀ (a : ℚ) (vals : List (String × Option ℚ)) (q : ℚ) (breed : Option String)
      (flag : Bool),
      calcConfidenceScore (some a) vals q
          (some (validateMeasurements vals breed flag).consistencyScore) =
        max 0 (min 1
          (0.3 * a +
           0.25 * (((vals.filter (fun p => p.2.isSome)).length : ℚ) / (vals.length : ℚ)) +
           0.2 * q +
           0.15 * max 0 (1 - 0.2 * ((validateMeasurements vals breed flag).warnings.length : ℚ)) +
           0.1 * a)) := by
  intro a vals q breed flag
  simp only [calcConfidenceScore, Option.getD_some, landmarkConf_div,
    validate_consistency]
  apply clampQ_congr
  rw [show max (0 : ℚ)
      (1.0 - ((validateMeasurements vals breed flag).warnings.length : ℚ) * 0.2) =
      max (0 : ℚ)
      (1 - 0.2 * ((validateMeasurements vals breed flag).warnings.length : ℚ)) by
    congr 1
    ring]
  ring

/-! ## Claims about the bootstrap uncertainty estimator -/

theorem addLandmarkNoise_zero (points : PointMap) :
    addLandmarkNoise (fun _ => (0, 0)) points = points := by
  induction points with
  | nil => rfl
  | cons p ps ih =>
      rcases p with ⟨n, op⟩
      cases op with
      | none => simpa [addLandmarkNoise] using ih
      | some q => simpa [addLandmarkNoise] using ih

theorem listVar_nonneg (l : List ℚ) : 0 ≤ listVar l := by
  apply div_nonneg
  · apply List.sum_nonneg
    intro x hx
    obtain ⟨y, _, rfl⟩ := List.mem_map.mp hx
    positivity
  · positivity

theorem listMean_replicate (n : ℕ) (v : ℚ) (h : n ≠ 0) :
    listMean (List.replicate n v) = v := by
  simp only [listMean, List.sum_replicate, List.length_replicate, nsmul_eq_mul]
  field_simp

theorem listVar_replicate (n : ℕ) (v : ℚ) : listVar (List.replicate n v) = 0 := by
  rcases Nat.eq_zero_or_pos n with h | h
  · subst h
    simp [listVar]
  · have hmean := listMean_replicate n v h.ne'
    rw [listVar]
    simp only [List.map_replicate]
    rw [hmean, show ((v - v) : ℚ) ^ 2 = 0 by ring, List.sum_replicate, smul_zero,
      zero_div]

theorem filter_pos_replicate (n : ℕ) (v : ℚ) :
    (List.replicate n v).filter (fun x => decide (0 < x)) =
      if 0 < v then List.replicate n v else [] := by
  induction n with
  | zero => split <;> rfl
  | succ m ih =>
      simp only [List.replicate_succ, List.filter_cons, ih]
      by_cases hv : 0 < v <;> simp [hv, List.replicate_succ]

theorem bootstrapValues_zeroDraws (calcFn : PointMap → ℚ → ℚ) (pts : PointMap)
    (scale : ℚ) :
    bootstrapValues calcFn zeroDraws pts scale =
      if 0 < calcFn pts scale then List.replicate 50 (calcFn pts scale) else [] := by
  have hmap : (List.finRange 50).map
      (fun i => calcFn (addLandmarkNoise (zeroDraws i) pts) scale) =
      List.replicate 50 (calcFn pts scale) := by
    rw [show (fun i : Fin 50 => calcFn (addLandmarkNoise (zeroDraws i) pts) scale) =
        (fun _ : Fin 50 => calcFn pts scale) by
      funext i
      rw [show addLandmarkNoise (zeroDraws i) pts = pts from addLandmarkNoise_zero pts]]
    rw [List.map_const', List.length_finRange]
  rw [bootstrapValues, hmap, filter_pos_replicate]

/-- C7: over the bootstrap loop of
`_extract_measurements_with_uncertainty` — 50 perturbed trials per
measurement — (a) whenever an uncertainty is reported it is nonnegative,
(b) with the injected per-landmark noise forced to 0 the reported
uncertainty is exactly 0 (and a measurement invalid at the unperturbed
landmarks is reported as null), and (c) a measurement that is invalid in
every trial gets a null mean and a null uncertainty.  The model reports
the population variance; the source reports `np.std`, its square root, so
`stddev ≥ 0` and `stddev = 0` correspond exactly to `variance ≥ 0` and
`variance = 0`. -/
theorem C7_bootstrap_uncertainty :
    (∀ (calcFn : PointMap → ℚ → ℚ) (draws : Fin 50 → String → ℚ × ℚ)
        (pts : PointMap) (scale u : ℚ),
        (bootstrapOne calcFn draws pts scale).2 = some u → 0 ≤ u) ∧
    (∀ (calcFn : PointMap → ℚ → ℚ) (pts : PointMap) (scale : ℚ),
        bootstrapOne calcFn zeroDraws pts scale =
          if 0 < calcFn pts scale then (some (calcFn pts scale), some 0)
          else (none, none)) ∧
    (∀ (calcFn : PointMap → ℚ → ℚ) (draws : Fin 50 → String → ℚ × ℚ)
        (pts : PointMap) (scale : ℚ),
        (∀ i : Fin 50, ¬ 0 < calcFn (addLandmarkNoise (draws i) pts) scale) →
        bootstrapOne calcFn draws pts scale = (none, none)) := by
  refine ⟨?_, ?_, ?_⟩
  · intro calcFn draws pts scale u h
    rw [bootstrapOne] at h
    split at h
    · exact absurd h (by simp)
    · simp only [Prod.snd, Option.some.injEq] at h
      rw [show u = listVar (bootstrapValues calcFn draws pts scale) from h.symm]
      exact listVar_nonneg _
  · intro calcFn pts scale
    rw [bootstrapOne, bootstrapValues_zeroDraws]
    by_cases hv : 0 < calcFn pts scale
    · rw [if_pos hv, if_pos hv]
      rw [if_neg (by simp [List.isEmpty_iff])]
      rw [listMean_replicate 50 _ (by norm_num), listVar_replicate]
    · rw [if_neg hv, if_neg hv]
      rfl
  · intro calcFn draws pts scale h
    have hnil : bootstrapValues calcFn draws pts scale = [] := by
      rw [bootstrapValues, List.filter_eq_nil_iff]
      intro a ha
      obtain ⟨i, _, rfl⟩ := List.mem_map.mp ha
      simpa using h i
    rw [bootstrapOne, hnil]
    rfl

/-- Witness for C7: with zero noise and the measurement function that
returns the scale itself, the bootstrap reports mean 1 and uncertainty
exactly 0, which is nonnegative; with the constant-zero measurement
function, every trial is invalid and both results are null. -/
theorem C7_bootstrap_uncertainty_witness :
    bootstrapOne (fun _ s => s) zeroDraws ([] : PointMap) 1 = (some 1, some 0) ∧
    (0 : ℚ) ≤ 0 ∧
    bootstrapOne (fun _ _ => 0) zeroDraws ([] : PointMap) 1 = (none, none) := by
  have h1 : bootstrapOne (fun _ s => s) zeroDraws ([] : PointMap) 1 = (some 1, some 0) := by
    rw [C7_bootstrap_uncertainty.2.1 (fun _ s => s) ([] : PointMap) 1]
    norm_num
  refine ⟨h1, ?_, ?_⟩
  · exact C7_bootstrap_uncertainty.1 (fun _ s => s) zeroDraws ([] : PointMap) 1 0
      (by rw [h1])
  · exact C7_bootstrap_uncertainty.2.2 (fun _ _ => 0) zeroDraws ([] : PointMap) 1
      (fun i => by norm_num)

/-! ## Claims about the advanced measurement catalog -/

/-- C9: every one of the 15 functions in the advanced processor's
measurement catalog ignores its anatomical-points argument entirely and
returns a fixed literal constant multiplied by the scale factor —
placeholder behaviour, a noninterference property of the points input. -/
theorem C9_catalog_functions_constant :
    measurementFunctions.length = 15 ∧
    ∀ i : Fin 15, ∃ nf : String × (PointMap → ℚ → ℚ),
      measurementFunctions.get? i.val = some nf ∧
      ∀ (p₁ p₂ : PointMap) (s : ℚ),
        nf.2 p₁ s = nf.2 p₂ s ∧
        nf.2 p₁ s = (measurementConstants.get? i.val).getD 0 * s := by
  refine ⟨rfl, ?_⟩
  intro i
  fin_cases i <;>
    exact ⟨_, rfl, fun p₁ p₂ s => ⟨rfl, by
      norm_num [measurementFunctions, measurementConstants, calculateWitherHeight,
        calculateBackHeight, calculateSternumHeight, calculateRumpHeight,
        calculateBodyLength, calculateHeartGirth, calculateChestCircumference,
        calculateChestWidth, calculateRumpWidth, calculateHeadWidth,
        calculateHeadLength, calculateEarLength, calculateNeckLength,
        calculateNeckGirth, calculateTailLength]⟩⟩

end GoatMorpho
